import Mathlib

/-!
Shallow embedding of `src/lib/structures/Interaction.js` (the `Interaction`
class of the eris fork) and verification of the testable properties of the spec
against it.

JavaScript dynamic values are modelled by the inductive `JSValue`; objects
are association lists of string keys (insertion order preserved, as in JS).
Each response operation of the class is a pure function from the record (and
its arguments) to the REST-collaborator call it dispatches; because
`createMessage`/`editParent` assign `options.type` on the caller-supplied object in
place, those two also return the caller-visible options value after the call.
-/

/-- A JavaScript runtime value, as far as `Interaction.js` inspects values:
`undefined`, `null`, booleans, (integer) numbers, strings, and plain objects
given as ordered key/value lists. -/
inductive JSValue where
  | undef : JSValue
  | nullV : JSValue
  | bool : Bool → JSValue
  | num : Int → JSValue
  | str : String → JSValue
  | obj : List (String × JSValue) → JSValue

/-- Read a field of a JS object given as a field list; a missing key reads as
`undefined`, as in JavaScript property access. -/
def lookupField (fs : List (String × JSValue)) (k : String) : JSValue :=
  match fs with
  | [] => JSValue.undef
  | (k', v) :: rest => if k' = k then v else lookupField rest k

/-- JS property assignment `o[k] = v` on a field list: overwrite in place if
the key exists (position preserved), otherwise append at the end. -/
def setField (fs : List (String × JSValue)) (k : String) (v : JSValue) :
    List (String × JSValue) :=
  match fs with
  | [] => [(k, v)]
  | (k', v') :: rest =>
      if k' = k then (k', v) :: rest else (k', v') :: setField rest k v

/-- JavaScript truthiness of the values we model (`NaN` is out of scope since
numbers are integers). -/
def JSValue.truthy : JSValue → Bool
  | JSValue.undef => false
  | JSValue.nullV => false
  | JSValue.bool b => b
  | JSValue.num n => n != 0
  | JSValue.str s => s != ""
  | JSValue.obj _ => true

namespace Eris

/-- Modelled from the spec: `../Constants` (`lib/Constants.js`) is required by
`Interaction.js` but is not under `src/`; §6 of the spec fixes the
`InteractionResponseType` discriminator values as 1=Pong,
4=ChannelMessageWithSource, 5=DeferredChannelMessageWithSource,
6=DeferredUpdateMessage, 7=UpdateMessage. -/
def InteractionResponseType.PONG : Int := 1

/-- Modelled from the spec (§6): discriminator for a full initial message. -/
def InteractionResponseType.CHANNEL_MESSAGE_WITH_SOURCE : Int := 4

/-- Modelled from the spec (§6): discriminator for a deferred initial
message. -/
def InteractionResponseType.DEFERRED_CHANNEL_MESSAGE_WITH_SOURCE : Int := 5

/-- Modelled from the spec (§6): discriminator for a deferred message
update. -/
def InteractionResponseType.DEFERRED_UPDATE_MESSAGE : Int := 6

/-- Modelled from the spec (§6): discriminator for an update of the source
message. -/
def InteractionResponseType.UPDATE_MESSAGE : Int := 7

/-- The error kinds the spec names in §7. The embedded operations record
which of them the source can actually raise locally (as the theorems below
establish, none of them). -/
inductive InteractionError where
  | MalformedPayload : InteractionError
  | InvalidForVariant : InteractionError
  | AlreadyResponded : InteractionError
  | TokenExpired : InteractionError
  | TransportFailure : InteractionError

/-- A call handed to the REST collaborator (`this._client`), one constructor
per client method `Interaction.js` invokes, carrying the arguments in order. -/
inductive RestCall where
  | createInteractionResponse : JSValue → JSValue → JSValue → RestCall
  | executeWebhook : JSValue → JSValue → JSValue → RestCall
  | editWebhookMessage : JSValue → JSValue → JSValue → JSValue → RestCall
  | deleteWebhookMessage : JSValue → JSValue → JSValue → RestCall

/-- The `Interaction` record as the constructor builds it: `id`,
`applicationId`, `type` and `version` are assigned unconditionally; the other
fields only when present (`!== undefined`) in the payload. The `member` and
`message` fields hold the raw payload values (the `Member`/`Message` wrapper
classes are external collaborators not under `src/` and no claim depends on
them). -/
structure Interaction where
  id : JSValue
  applicationId : JSValue
  channelId : Option JSValue
  data : Option JSValue
  guildId : Option JSValue
  member : Option JSValue
  message : Option JSValue
  token : Option JSValue
  type : JSValue
  version : JSValue

/-- A payload field wrapped in `Option`: `none` when the payload reads
`undefined` there, mirroring the `!== undefined` guards of the constructor. -/
def optField (fs : List (String × JSValue)) (k : String) : Option JSValue :=
  match lookupField fs k with
  | JSValue.undef => none
  | v => some v

/-- The `Interaction` constructor (lines 28–54). The source has no failure
path: it copies `data.type` verbatim with no discriminator validation, so the
result is always `Except.ok`; the `Except` wrapper makes the claimed
`MalformedPayload` outcome statable. -/
def Interaction.construct (data : List (String × JSValue)) :
    Except InteractionError Interaction :=
  Except.ok
    { id := lookupField data "id"
    , applicationId := lookupField data "application_id"
    , channelId := optField data "channel_id"
    , data := optField data "data"
    , guildId := optField data "guild_id"
    , member := optField data "member"
    , message := optField data "message"
    , token := optField data "token"
    , type := lookupField data "type"
    , version := lookupField data "version" }

/-- Reading `this.token` in JS yields `undefined` when the constructor never
assigned it. -/
def Interaction.tokenV (i : Interaction) : JSValue :=
  i.token.getD JSValue.undef

/-- `acknowledge()` (lines 60–64): dispatches a `createInteractionResponse`
with `{type: DEFERRED_UPDATE_MESSAGE}`; no local check, no state change. The
record after the call is returned alongside to make state claims statable. -/
def Interaction.acknowledge (i : Interaction) :
    Except InteractionError RestCall × Interaction :=
  (Except.ok (RestCall.createInteractionResponse i.id i.tokenV
    (JSValue.obj [("type", JSValue.num InteractionResponseType.DEFERRED_UPDATE_MESSAGE)])), i)

/-- `createFollowup(options)` (lines 85–87): forwards `options` untouched to
`executeWebhook(applicationId, token, options)`. -/
def Interaction.createFollowup (i : Interaction) (options : JSValue) :
    Except InteractionError RestCall × Interaction :=
  (Except.ok (RestCall.executeWebhook i.applicationId i.tokenV options), i)

/-- `createMessage(options)` (lines 102–111): when `options` is not
`undefined`, a non-object or `null` value is replaced by a fresh `{}`; then
`options.type = CHANNEL_MESSAGE_WITH_SOURCE` is assigned on that object (an
in-place mutation when it is the object of the caller), and the result is passed
to `createInteractionResponse`. The third component is the caller-visible
options value after the call (the caller-supplied object is shared exactly when
`options` was a non-null object). -/
def Interaction.createMessage (i : Interaction) (options : JSValue) :
    Except InteractionError RestCall × Interaction × JSValue :=
  match options with
  | JSValue.undef =>
      (Except.ok (RestCall.createInteractionResponse i.id i.tokenV JSValue.undef),
        i, JSValue.undef)
  | JSValue.obj fs =>
      let fs2 := setField fs "type"
        (JSValue.num InteractionResponseType.CHANNEL_MESSAGE_WITH_SOURCE)
      (Except.ok (RestCall.createInteractionResponse i.id i.tokenV (JSValue.obj fs2)),
        i, JSValue.obj fs2)
  | v =>
      (Except.ok (RestCall.createInteractionResponse i.id i.tokenV
        (JSValue.obj [("type",
          JSValue.num InteractionResponseType.CHANNEL_MESSAGE_WITH_SOURCE)])),
        i, v)

/-- `defer(flags)` (lines 118–123): dispatches
`{type: DEFERRED_CHANNEL_MESSAGE_WITH_SOURCE, flags: flags || 0}`; the
`flags || 0` is JS truthiness choice. -/
def Interaction.defer (i : Interaction) (flags : JSValue) :
    Except InteractionError RestCall × Interaction :=
  (Except.ok (RestCall.createInteractionResponse i.id i.tokenV
    (JSValue.obj
      [("type", JSValue.num InteractionResponseType.DEFERRED_CHANNEL_MESSAGE_WITH_SOURCE),
       ("flags", if flags.truthy then flags else JSValue.num 0)])), i)

/-- `deferUpdate()` (lines 129–133): dispatches
`{type: DEFERRED_UPDATE_MESSAGE}`, exactly as `acknowledge()` does. -/
def Interaction.deferUpdate (i : Interaction) :
    Except InteractionError RestCall × Interaction :=
  (Except.ok (RestCall.createInteractionResponse i.id i.tokenV
    (JSValue.obj [("type", JSValue.num InteractionResponseType.DEFERRED_UPDATE_MESSAGE)])), i)

/-- `delete(messageId)` (lines 140–142): forwards to
`deleteWebhookMessage(applicationId, token, messageId)`. -/
def Interaction.delete (i : Interaction) (messageId : JSValue) :
    Except InteractionError RestCall × Interaction :=
  (Except.ok (RestCall.deleteWebhookMessage i.applicationId i.tokenV messageId), i)

/-- `edit(messageId, options)` (lines 160–162): forwards both arguments
untouched to `editWebhookMessage(applicationId, token, messageId, options)`. -/
def Interaction.edit (i : Interaction) (messageId options : JSValue) :
    Except InteractionError RestCall × Interaction :=
  (Except.ok (RestCall.editWebhookMessage i.applicationId i.tokenV messageId options), i)

/-- `editParent(options)` (lines 177–186): same shape as `createMessage` but
stamps `UPDATE_MESSAGE`. -/
def Interaction.editParent (i : Interaction) (options : JSValue) :
    Except InteractionError RestCall × Interaction × JSValue :=
  match options with
  | JSValue.undef =>
      (Except.ok (RestCall.createInteractionResponse i.id i.tokenV JSValue.undef),
        i, JSValue.undef)
  | JSValue.obj fs =>
      let fs2 := setField fs "type"
        (JSValue.num InteractionResponseType.UPDATE_MESSAGE)
      (Except.ok (RestCall.createInteractionResponse i.id i.tokenV (JSValue.obj fs2)),
        i, JSValue.obj fs2)
  | v =>
      (Except.ok (RestCall.createInteractionResponse i.id i.tokenV
        (JSValue.obj [("type",
          JSValue.num InteractionResponseType.UPDATE_MESSAGE)])),
        i, v)

/-- One of the five initial-response operations of the state machine in the spec,
with its argument where it takes one. -/
inductive InitialOp where
  | acknowledgeOp : InitialOp
  | deferOp : JSValue → InitialOp
  | deferUpdateOp : InitialOp
  | createMessageOp : JSValue → InitialOp
  | editParentOp : JSValue → InitialOp

/-- Run an initial-response operation on a record, yielding the local result
and the record afterwards. -/
def runInitial (op : InitialOp) (i : Interaction) :
    Except InteractionError RestCall × Interaction :=
  match op with
  | InitialOp.acknowledgeOp => i.acknowledge
  | InitialOp.deferOp f => i.defer f
  | InitialOp.deferUpdateOp => i.deferUpdate
  | InitialOp.createMessageOp o => ((i.createMessage o).1, (i.createMessage o).2.1)
  | InitialOp.editParentOp o => ((i.editParent o).1, (i.editParent o).2.1)

/-- `n` successive `createFollowup` calls with the same options, threading the
record state. -/
def followupN : Nat → Interaction → JSValue → Interaction
  | 0, i, _ => i
  | Nat.succ n, i, o => followupN n (i.createFollowup o).2 o

end Eris

namespace Eris

/-- Fallback record used only to give `getRecord` a total type; never reached
since the constructor always succeeds. -/
def emptyInteraction : Interaction :=
  { id := JSValue.undef, applicationId := JSValue.undef, channelId := none
  , data := none, guildId := none, member := none, message := none
  , token := none, type := JSValue.undef, version := JSValue.undef }

/-- Extract the record a successful construction yields. -/
def getRecord (data : List (String × JSValue)) : Interaction :=
  match Interaction.construct data with
  | Except.ok i => i
  | Except.error _ => emptyInteraction

/-- A concrete inbound payload with discriminator 2 (Slash Command). -/
def slashPayload : List (String × JSValue) :=
  [("id", JSValue.str "1001"), ("application_id", JSValue.str "2002"),
   ("token", JSValue.str "tok"), ("type", JSValue.num 2),
   ("version", JSValue.num 1)]

/-- The record the constructor builds from `slashPayload`. -/
def slashRecord : Interaction := getRecord slashPayload

/-- A concrete inbound payload whose discriminator 99 is not 1, 2 or 3. -/
def badPayload : List (String × JSValue) :=
  [("id", JSValue.str "9009"), ("application_id", JSValue.str "9008"),
   ("token", JSValue.str "tok9"), ("type", JSValue.num 99),
   ("version", JSValue.num 1)]

/-- Every initial-response operation leaves the record unchanged: the source
keeps no response state at all. -/
theorem runInitial_preserves_record (op : InitialOp) (i : Interaction) :
    (runInitial op i).2 = i := by
  cases op with
  | acknowledgeOp => rfl
  | deferOp f => rfl
  | deferUpdateOp => rfl
  | createMessageOp o => cases o <;> rfl
  | editParentOp o => cases o <;> rfl

/-- Every initial-response operation dispatches a `createInteractionResponse`
call with the id and token of the record, with no local failure path. -/
theorem runInitial_dispatches (op : InitialOp) (i : Interaction) :
    ∃ p, (runInitial op i).1
      = Except.ok (RestCall.createInteractionResponse i.id i.tokenV p) := by
  cases op with
  | acknowledgeOp => exact ⟨_, rfl⟩
  | deferOp f => exact ⟨_, rfl⟩
  | deferUpdateOp => exact ⟨_, rfl⟩
  | createMessageOp o => cases o <;> exact ⟨_, rfl⟩
  | editParentOp o => cases o <;> exact ⟨_, rfl⟩

/-- Writing a key then reading it back yields the written value. -/
theorem lookupField_setField_same (fs : List (String × JSValue)) (k : String)
    (v : JSValue) : lookupField (setField fs k v) k = v := by
  induction fs with
  | nil => simp [setField, lookupField]
  | cons hd tl ih =>
      obtain ⟨k', v'⟩ := hd
      by_cases h : k' = k
      · simp [setField, lookupField, h]
      · simp [setField, lookupField, h, ih]

/-- Writing one key leaves every other key unchanged. -/
theorem lookupField_setField_other (fs : List (String × JSValue))
    (k k' : String) (v : JSValue) (h : k' ≠ k) :
    lookupField (setField fs k v) k' = lookupField fs k' := by
  induction fs with
  | nil =>
      simp only [setField, lookupField]
      rw [if_neg (fun hh => h (Eq.symm hh))]
  | cons hd tl ih =>
      obtain ⟨k0, v0⟩ := hd
      simp only [setField]
      by_cases h0 : k0 = k
      · rw [if_pos h0]
        simp only [lookupField]
        have hn : ¬ k0 = k' := fun hh => h (Eq.symm (Eq.trans (Eq.symm h0) hh))
        rw [if_neg hn, if_neg hn]
      · rw [if_neg h0]
        simp only [lookupField]
        by_cases h1 : k0 = k'
        · rw [if_pos h1, if_pos h1]
        · rw [if_neg h1, if_neg h1]
          exact ih

end Eris

namespace Eris

/-- C1 counterexample: on the concrete slash-command record, a first
`createMessage` succeeds, and a second `createMessage` on the resulting record
does not fail with `AlreadyResponded` — it succeeds again, so the claimed
local one-shot enforcement is absent from the code. -/
theorem C1_second_response_not_rejected :
    (runInitial (InitialOp.createMessageOp
        (JSValue.obj [("content", JSValue.str "hi")])) slashRecord).1.isOk = true ∧
    (runInitial (InitialOp.createMessageOp
        (JSValue.obj [("content", JSValue.str "hi")]))
      (runInitial (InitialOp.createMessageOp
        (JSValue.obj [("content", JSValue.str "hi")])) slashRecord).2).1
      ≠ Except.error InteractionError.AlreadyResponded := by
  refine ⟨rfl, fun h => ?_⟩
  exact Except.noConfusion h

/-- C1 amended: the code keeps no response state, so after any initial-response
operation every further initial-response operation also succeeds locally and
dispatches another `createInteractionResponse` to the REST collaborator; no
`AlreadyResponded` failure exists. -/
theorem C1_no_local_one_shot_enforcement (i : Interaction) (op1 op2 : InitialOp) :
    (runInitial op1 i).1.isOk = true ∧
    (runInitial op1 i).2 = i ∧
    ∃ p, (runInitial op2 (runInitial op1 i).2).1
      = Except.ok (RestCall.createInteractionResponse i.id i.tokenV p) := by
  refine ⟨?_, runInitial_preserves_record op1 i, ?_⟩
  · obtain ⟨p, hp⟩ := runInitial_dispatches op1 i
    rw [hp]
    rfl
  · rw [runInitial_preserves_record op1 i]
    exact runInitial_dispatches op2 i

/-- C2 counterexample: on the concrete record whose discriminator is 2
(Slash Command), `acknowledge()` does not fail with `InvalidForVariant` — it
succeeds and dispatches; the code performs no variant check. -/
theorem C2_no_variant_rejection_on_slash :
    slashRecord.type = JSValue.num 2 ∧
    (slashRecord.acknowledge).1.isOk = true ∧
    (slashRecord.acknowledge).1 ≠ Except.error InteractionError.InvalidForVariant := by
  refine ⟨rfl, rfl, fun h => ?_⟩
  exact Except.noConfusion h

/-- C2 amended: `acknowledge()`, `deferUpdate()` and `editParent()` succeed and
dispatch for every record, whatever its `type` field (so in particular the
MessageComponent half of the claim holds, and the claimed `InvalidForVariant`
rejection for SlashCommand and Ping does not exist). -/
theorem C2_component_only_ops_unrestricted (i : Interaction) (o : JSValue) :
    (i.acknowledge).1 = Except.ok (RestCall.createInteractionResponse i.id i.tokenV
      (JSValue.obj [("type",
        JSValue.num InteractionResponseType.DEFERRED_UPDATE_MESSAGE)])) ∧
    (i.deferUpdate).1 = Except.ok (RestCall.createInteractionResponse i.id i.tokenV
      (JSValue.obj [("type",
        JSValue.num InteractionResponseType.DEFERRED_UPDATE_MESSAGE)])) ∧
    ∃ p, (i.editParent o).1
      = Except.ok (RestCall.createInteractionResponse i.id i.tokenV p) := by
  refine ⟨rfl, rfl, ?_⟩
  cases o <;> exact ⟨_, rfl⟩

/-- C3 counterexample: construction from the concrete payload with
discriminator 99 succeeds (building a record that stores 99 verbatim) rather
than failing with `MalformedPayload`. -/
theorem C3_unrecognized_discriminator_accepted :
    (Interaction.construct badPayload).isOk = true ∧
    Interaction.construct badPayload
      ≠ Except.error InteractionError.MalformedPayload ∧
    (getRecord badPayload).type = JSValue.num 99 := by
  refine ⟨rfl, fun h => ?_, rfl⟩
  exact Except.noConfusion h

/-- C3 amended: the constructor validates nothing — for every inbound payload
it succeeds, copying the `type` discriminator verbatim into the record; no
`MalformedPayload` failure exists. -/
theorem C3_construction_never_fails (data : List (String × JSValue)) :
    (Interaction.construct data).isOk = true ∧
    ∃ i, Interaction.construct data = Except.ok i ∧
      i.type = lookupField data "type" := by
  exact ⟨rfl, ⟨_, rfl, rfl⟩⟩

end Eris

namespace Eris

/-- C4: `createMessage` on an object options value dispatches a request whose
`type` field is forced to 4 (ChannelMessageWithSource) whatever the caller put
there, while every other field is forwarded unchanged; the record id and token
accompany the request. -/
theorem C4_createMessage_forces_type_4 (i : Interaction)
    (fs : List (String × JSValue)) (k : String) (hk : k ≠ "type") :
    (i.createMessage (JSValue.obj fs)).1
      = Except.ok (RestCall.createInteractionResponse i.id i.tokenV
          (JSValue.obj (setField fs "type"
            (JSValue.num InteractionResponseType.CHANNEL_MESSAGE_WITH_SOURCE)))) ∧
    lookupField (setField fs "type"
        (JSValue.num InteractionResponseType.CHANNEL_MESSAGE_WITH_SOURCE)) "type"
      = JSValue.num 4 ∧
    lookupField (setField fs "type"
        (JSValue.num InteractionResponseType.CHANNEL_MESSAGE_WITH_SOURCE)) k
      = lookupField fs k := by
  refine ⟨rfl, lookupField_setField_same fs "type" _, ?_⟩
  exact lookupField_setField_other fs "type" k _ hk

/-- C4 witness: on the concrete slash-command record,
`createMessage({content:"hi"})` dispatches discriminator 4 with the content
field forwarded. -/
theorem C4_createMessage_forces_type_4_witness :
    (slashRecord.createMessage
        (JSValue.obj [("content", JSValue.str "hi")])).1
      = Except.ok (RestCall.createInteractionResponse slashRecord.id
          slashRecord.tokenV
          (JSValue.obj [("content", JSValue.str "hi"),
                        ("type", JSValue.num 4)])) ∧
    lookupField [("content", JSValue.str "hi"), ("type", JSValue.num 4)] "type"
      = JSValue.num 4 ∧
    lookupField [("content", JSValue.str "hi"), ("type", JSValue.num 4)] "content"
      = lookupField [("content", JSValue.str "hi")] "content" :=
  C4_createMessage_forces_type_4 slashRecord
    [("content", JSValue.str "hi")] "content" (by decide)

/-- C5 counterexample: after `createMessage({content:"hi"})` the caller-visible
options object carries the stamped `type` field — it is not the object the
caller passed in, so the claimed absence of mutation of caller-owned data is
false. -/
theorem C5_caller_options_mutated :
    (slashRecord.createMessage
        (JSValue.obj [("content", JSValue.str "hi")])).2.2
      = JSValue.obj [("content", JSValue.str "hi"), ("type", JSValue.num 4)] ∧
    JSValue.obj [("content", JSValue.str "hi"), ("type", JSValue.num 4)]
      ≠ JSValue.obj [("content", JSValue.str "hi")] := by
  refine ⟨rfl, fun h => ?_⟩
  have hlen := congrArg
    (fun v => match v with
      | JSValue.obj fs => fs.length
      | _ => 0) h
  simp at hlen

/-- C5 amended: `createMessage` and `editParent` stamp the discriminator by
mutating the caller-supplied options object in place whenever it is a non-null
object: after the call the caller-visible object carries the forced `type`
field, and the very same object is what is dispatched to the REST
collaborator. -/
theorem C5_options_stamped_in_place (i : Interaction)
    (fs : List (String × JSValue)) :
    (i.createMessage (JSValue.obj fs)).2.2
      = JSValue.obj (setField fs "type"
          (JSValue.num InteractionResponseType.CHANNEL_MESSAGE_WITH_SOURCE)) ∧
    (i.createMessage (JSValue.obj fs)).1
      = Except.ok (RestCall.createInteractionResponse i.id i.tokenV
          ((i.createMessage (JSValue.obj fs)).2.2)) ∧
    (i.editParent (JSValue.obj fs)).2.2
      = JSValue.obj (setField fs "type"
          (JSValue.num InteractionResponseType.UPDATE_MESSAGE)) ∧
    (i.editParent (JSValue.obj fs)).1
      = Except.ok (RestCall.createInteractionResponse i.id i.tokenV
          ((i.editParent (JSValue.obj fs)).2.2)) :=
  ⟨rfl, rfl, rfl, rfl⟩

/-- C6: `defer(64)` dispatches discriminator 5 with `flags` 64, and `defer()`
with no argument (`undefined` flags) dispatches discriminator 5 with
`flags` 0. -/
theorem C6_defer_flags (i : Interaction) :
    (i.defer (JSValue.num 64)).1
      = Except.ok (RestCall.createInteractionResponse i.id i.tokenV
          (JSValue.obj [("type", JSValue.num 5), ("flags", JSValue.num 64)])) ∧
    (i.defer JSValue.undef).1
      = Except.ok (RestCall.createInteractionResponse i.id i.tokenV
          (JSValue.obj [("type", JSValue.num 5), ("flags", JSValue.num 0)])) :=
  ⟨rfl, rfl⟩

/-- C7: `deferUpdate()` is the same operation as `acknowledge()`: identical
dispatched request (discriminator 6 with the id and token of the record) and
identical effect on the record. -/
theorem C7_deferUpdate_aliases_acknowledge (i : Interaction) :
    i.deferUpdate = i.acknowledge ∧
    (i.acknowledge).1
      = Except.ok (RestCall.createInteractionResponse i.id i.tokenV
          (JSValue.obj [("type",
            JSValue.num InteractionResponseType.DEFERRED_UPDATE_MESSAGE)])) ∧
    (i.acknowledge).2 = i :=
  ⟨rfl, rfl, rfl⟩

/-- C8: any number of `createFollowup` calls leaves the record untouched, and
each call succeeds, dispatching `executeWebhook` — `AlreadyResponded` is never
raised, in particular before any initial response. -/
theorem C8_followup_never_touches_state (i : Interaction) (o : JSValue)
    (n : Nat) :
    followupN n i o = i ∧
    (i.createFollowup o).1
      = Except.ok (RestCall.executeWebhook i.applicationId i.tokenV o) ∧
    (i.createFollowup o).1 ≠ Except.error InteractionError.AlreadyResponded := by
  refine ⟨?_, rfl, fun h => Except.noConfusion h⟩
  induction n with
  | zero => rfl
  | succ n ih => exact ih

/-- C9: `edit(messageId, options)` forwards the message id and the options
value unchanged — no discriminator stamped — to `editWebhookMessage`, together
with the applicationId and token of the record, and leaves the record
untouched. -/
theorem C9_edit_forwards_unchanged (i : Interaction) (options : JSValue) :
    (i.edit (JSValue.str "@original") options).1
      = Except.ok (RestCall.editWebhookMessage i.applicationId i.tokenV
          (JSValue.str "@original") options) ∧
    (i.edit (JSValue.str "@original") options).2 = i :=
  ⟨rfl, rfl⟩

/-- C10: at the boundary of `createMessage`/`editParent`, `undefined` options
are forwarded as `undefined` with no discriminator stamped, while a
non-object value (string or number) is replaced by a fresh object holding
only the forced discriminator, the caller-supplied value being discarded
(and left untouched). -/
theorem C10_nonobject_options_edge_cases (i : Interaction) (s : String)
    (m : Int) :
    (i.createMessage JSValue.undef).1
      = Except.ok (RestCall.createInteractionResponse i.id i.tokenV
          JSValue.undef) ∧
    (i.createMessage JSValue.undef).2.2 = JSValue.undef ∧
    (i.createMessage (JSValue.str s)).1
      = Except.ok (RestCall.createInteractionResponse i.id i.tokenV
          (JSValue.obj [("type", JSValue.num 4)])) ∧
    (i.createMessage (JSValue.str s)).2.2 = JSValue.str s ∧
    (i.createMessage (JSValue.num m)).1
      = Except.ok (RestCall.createInteractionResponse i.id i.tokenV
          (JSValue.obj [("type", JSValue.num 4)])) ∧
    (i.createMessage (JSValue.num m)).2.2 = JSValue.num m ∧
    (i.editParent JSValue.undef).1
      = Except.ok (RestCall.createInteractionResponse i.id i.tokenV
          JSValue.undef) ∧
    (i.editParent JSValue.undef).2.2 = JSValue.undef ∧
    (i.editParent (JSValue.str s)).1
      = Except.ok (RestCall.createInteractionResponse i.id i.tokenV
          (JSValue.obj [("type", JSValue.num 7)])) ∧
    (i.editParent (JSValue.str s)).2.2 = JSValue.str s ∧
    (i.editParent (JSValue.num m)).1
      = Except.ok (RestCall.createInteractionResponse i.id i.tokenV
          (JSValue.obj [("type", JSValue.num 7)])) ∧
    (i.editParent (JSValue.num m)).2.2 = JSValue.num m :=
  ⟨rfl, rfl, rfl, rfl, rfl, rfl, rfl, rfl, rfl, rfl, rfl, rfl⟩

end Eris
